import Mathlib

/-!
# Verification of the SCION control-plane PKI issuance and renewal engine

Shallow embedding of the certificate-chain issuance policy
(`CAPolicy.CreateChain`, `SubjectKeyID`) and the client-side renewal
workflow (`newRenewCmd` run function, `extractChain`, `extractChainLegacy`,
`readECKey`, `outFileFromSubject`, `maybeMissingTRCInGrace`) of the
repository, together with proofs of the specification's claims about them.

Modelling conventions:
* Go `time.Time` and `time.Duration` are embedded as `Int` (the zero time is
  `0`, matching Go's `IsZero` test used in `CreateChain`).
* Byte strings are `List Nat` (each entry one byte).
* External collaborators (SHA-1, elliptic marshaling, PEM/PKCS#8/proto/CMS
  parsers, the network, the file system) are passed in as oracle values or
  functions; the embedded code only reproduces the repository's own control
  flow over their results.
* Repository functions that the shown sources only call (they are defined in
  packages outside the provided excerpt) are modelled from the specification
  and marked `Modelled from the spec:` in their doc comments.
-/

/-- A validity interval of a certificate or TRC (`cppki.Validity`). -/
structure Validity where
  notBefore : Int
  notAfter : Int

/-- Modelled from the spec: `cppki.Validity.Covers` is defined outside the
provided sources (src only calls it, e.g. in `CAPolicy.CreateChain`).
The spec defines `covers(outer, inner)` as true iff
`outer.notBefore <= inner.notBefore && inner.notAfter <= outer.notAfter`;
the receiver is the outer interval. -/
def Validity.Covers (outer inner : Validity) : Bool :=
  decide (outer.notBefore ≤ inner.notBefore) && decide (inner.notAfter ≤ outer.notAfter)

/-- An ISD-AS identifier (`addr.IA`): ISD number plus the AS number.  The AS
number is carried in its canonical colon-separated textual form (for example
`"ff00:0:110"`), which is the part relevant to the file-naming logic. -/
structure IA where
  i : Nat
  a : String
deriving DecidableEq

/-- Modelled from the spec: `addr.AS.FileFmt` (defined outside the provided
sources) renders the AS number in file format, i.e. the canonical
colon-separated form with each `':'` replaced by `'_'`. -/
def IA.fileFmtA (ia : IA) : String :=
  String.mk (ia.a.data.map (fun c => if c = ':' then '_' else c))

/-- Signature algorithms (`x509.SignatureAlgorithm`); `unknown` is Go's zero
value `UnknownSignatureAlgorithm`. -/
inductive SignatureAlgorithm
  | unknown
  | ecdsaWithSHA256
  | ecdsaWithSHA384
  | ecdsaWithSHA512
deriving DecidableEq

/-- Extended key usages (`x509.ExtKeyUsage`). -/
inductive ExtKeyUsage
  | serverAuth
  | clientAuth
  | timeStamping
  | other (n : Nat)
deriving DecidableEq

/-- Public keys (`crypto.PublicKey`); the `ecdsa` case carries the curve (as
an identifier) and the point coordinates, mirroring `ecdsa.PublicKey`. -/
inductive PublicKey
  | ecdsa (curve : Nat) (x y : Int)
  | rsa (n e : Nat)
  | ed25519 (bytes : List Nat)

/-- Private keys as produced by `x509.ParsePKCS8PrivateKey`. -/
structure ECPrivateKey where
  d : Nat
  pub : PublicKey

/-- The possible results of PKCS#8 private-key parsing
(`crypto/x509.ParsePKCS8PrivateKey` can return several key types). -/
inductive PrivateKey
  | ecdsa (k : ECPrivateKey)
  | rsa (n d : Nat)
  | ed25519 (seed : List Nat)

/-- An abstract identity for a `crypto.Signer` private key, together with the
signature algorithm matching that key (`signed.SelectSignatureAlgorithm`). -/
structure Signer where
  keyId : Nat
  algorithm : SignatureAlgorithm
deriving DecidableEq

/-- A record of a signing operation: which private key produced the
signature, and with which algorithm.  Stands in for the actual signature
bytes of `x509.CreateCertificate`. -/
structure SignatureValue where
  key : Signer
  alg : SignatureAlgorithm
deriving DecidableEq

/-- The distinguished-name fields of `pkix.Name` that the engine reads or
writes.  The custom ISD-AS attribute (OID `OIDNameIA`, read back by
`cppki.ExtractIA`) is modelled as the `isdAS` field. -/
structure PkixName where
  commonName : String := ""
  serialNumber : String := ""
  country : List String := []
  organization : List String := []
  isdAS : Option IA := none
deriving DecidableEq

/-- An X.509 certificate (`x509.Certificate`), restricted to the fields the
engine reads or writes.  Field defaults are Go's zero values, so a template
certificate can be built by listing exactly the fields the source sets. -/
structure Certificate where
  version : Nat := 0
  serialNumber : List Nat := []
  subject : PkixName := {}
  issuer : PkixName := {}
  notBefore : Int := 0
  notAfter : Int := 0
  keyUsageDigitalSignature : Bool := false
  extKeyUsage : List ExtKeyUsage := []
  basicConstraintsValid : Bool := false
  subjectKeyId : List Nat := []
  authorityKeyId : List Nat := []
  publicKey : PublicKey := .ecdsa 0 0 0
  signatureAlgorithm : SignatureAlgorithm := .unknown
  signedWith : Option SignatureValue := none

/-- A PEM block (`pem.Block`). -/
structure PEMBlock where
  type : String
  bytes : List Nat

/-- Tags for the wrapping error messages of `serrors.WrapStr` call sites. -/
inductive WrapTag
  | computingSubjectKeyID
  | createdInvalidASCert
  | parsingASCert
  | parsingCACert
  | verificationFailed

/-- Errors of the embedded engine.  `external` stands for an arbitrary error
returned by an external collaborator and threaded through unchanged. -/
inductive Err
  | validityNotCovered (ca as : Validity)
  | notSupported
  | wrongChainLength
  | issuerMismatch
  | validityNesting
  | badExtensions
  | bothRequestsDisabled
  | noRequestCreated
  | unsupportedKeyType
  | external (code : Nat)
  | wrap (tag : WrapTag) (inner : Err)

/-- Oracles for the cryptographic primitives from the Go standard library
used by `SubjectKeyID` (src `part_002`): `crypto/sha1.Sum` and
`crypto/elliptic.Marshal`.  They are external collaborators; the embedding is
parametric in them. -/
structure CryptoOracle where
  sha1 : List Nat → List Nat
  ellipticMarshal : Nat → Int → Int → List Nat

/-- `cppki.SubjectKeyID` (src `part_002:121`): for an ECDSA public key the
subject key identifier is the SHA-1 hash of the marshaled key material; any
other key type fails with a not-supported error. -/
def SubjectKeyID (co : CryptoOracle) : PublicKey → Except Err (List Nat)
  | .ecdsa curve x y => .ok (co.sha1 (co.ellipticMarshal curve x y))
  | _ => .error .notSupported

/-- `big.NewInt(0).SetBytes(bs)` followed by `.Bytes()`: the big-endian byte
string with leading zero bytes stripped, which is how a certificate stores
and re-exposes its serial number. -/
def bigIntBytes (bs : List Nat) : List Nat :=
  bs.dropWhile (fun b => b = 0)

/-- Modelled from the spec: `cppki.ValidateChain` is defined outside the
provided sources (src calls it from `CreateChain`, `extractChain` and
`extractChainLegacy`).  Per the spec a certificate chain is an ordered pair
(leaf AS certificate, issuing CA certificate) whose invariants are: the
leaf's issuer fields match the CA's subject fields; the leaf's validity
window is fully contained in the CA's window; the leaf carries the required
extension set (digital-signature key usage, the three extended key usages,
no basic constraints). -/
def ValidateChain (chain : List Certificate) : Except Err Unit :=
  match chain with
  | [as, ca] =>
    if as.issuer ≠ ca.subject then .error .issuerMismatch
    else if !(Validity.Covers ⟨ca.notBefore, ca.notAfter⟩ ⟨as.notBefore, as.notAfter⟩) then
      .error .validityNesting
    else if !as.keyUsageDigitalSignature then .error .badExtensions
    else if as.extKeyUsage ≠ [.serverAuth, .clientAuth, .timeStamping] then .error .badExtensions
    else if as.basicConstraintsValid then .error .badExtensions
    else .ok ()
  | _ => .error .wrongChainLength

/-- `x509.CreateCertificate` followed by `x509.ParseCertificate` (the
round-trip in `CreateChain`): the resulting certificate carries the template
fields, the issuer copied from the parent's subject, the supplied public
key, and a signature made by the supplied private key with the template's
signature algorithm. -/
def createCertificate (tmpl parent : Certificate) (pub : PublicKey) (priv : Signer) :
    Certificate :=
  { tmpl with
    issuer := parent.subject
    publicKey := pub
    signedWith := some ⟨priv, tmpl.signatureAlgorithm⟩ }

/-- A certificate signing request (`x509.CertificateRequest`), restricted to
the fields `CreateChain` and the renewal client read or write.
`extraExtensions` models the extension list the client embeds in the CSR
(which carries, among others, a client-supplied subject key identifier). -/
structure CertificateRequest where
  subject : PkixName
  publicKey : PublicKey
  extraExtensions : List (List Nat × List Nat) := []

/-- `cppki.CAPolicy` (src `part_002:31`): validity duration, CA certificate,
private key, and the optional current-time override (`0` is Go's zero
time). -/
structure CAPolicy where
  validity : Int
  certificate : Certificate
  signer : Signer
  currentTime : Int := 0

/-- The signing time used by `CreateChain` (src `part_002:47`): the policy's
`CurrentTime` override, or the wall clock when the override is the zero
time. -/
def CAPolicy.effectiveNow (ca : CAPolicy) (wallClock : Int) : Int :=
  if ca.currentTime = 0 then wallClock else ca.currentTime

/-- `CAPolicy.CreateChain` (src `part_002:46`).  The wall clock and the
20 random serial-number bytes (`crypto/rand`) are passed in explicitly, per
the spec's injected-randomness/explicit-time convention.  The validity check
comes first; only when it passes is the AS certificate built, signed with
`ca.Signer`, and the chain self-checked through `ValidateChain`. -/
def CAPolicy.CreateChain (co : CryptoOracle) (ca : CAPolicy) (wallClock : Int)
    (serial : List Nat) (csr : CertificateRequest) : Except Err (List Certificate) :=
  let now := ca.effectiveNow wallClock
  let caVal : Validity := ⟨ca.certificate.notBefore, ca.certificate.notAfter⟩
  let asVal : Validity := ⟨now, now + ca.validity⟩
  if !(caVal.Covers asVal) then .error (.validityNotCovered caVal asVal)
  else
    match SubjectKeyID co csr.publicKey with
    | .error e => .error (.wrap .computingSubjectKeyID e)
    | .ok skid =>
      let tmpl : Certificate := {
        signatureAlgorithm := .ecdsaWithSHA512
        version := 3
        serialNumber := bigIntBytes serial
        subject := csr.subject
        notBefore := asVal.notBefore
        notAfter := asVal.notAfter
        keyUsageDigitalSignature := true
        extKeyUsage := [.serverAuth, .clientAuth, .timeStamping]
        basicConstraintsValid := false
        subjectKeyId := skid
        authorityKeyId := ca.certificate.subjectKeyId }
      let as := createCertificate tmpl ca.certificate csr.publicKey ca.signer
      let chain := [as, ca.certificate]
      match ValidateChain chain with
      | .error e => .error (.wrap .createdInvalidASCert e)
      | .ok _ => .ok chain

/- ### Claim C1 -/

/-- Claim C1: For every pair of validity intervals `outer` and `inner`,
`covers(outer, inner)` returns true if and only if
`outer.notBefore <= inner.notBefore` and `inner.notAfter <= outer.notAfter`;
equivalently it is false exactly when either bound violates containment. -/
theorem Covers_iff_containment (outer inner : Validity) :
    Validity.Covers outer inner = true ↔
      outer.notBefore ≤ inner.notBefore ∧ inner.notAfter ≤ outer.notAfter := by
  simp [Validity.Covers]

/- ### Claim C2 -/

/-- Claim C2: For every CSR and every `CAPolicy` whose configured duration
pushes the effective AS validity window outside the CA certificate's own
validity window, `CreateChain` fails with the validity-not-covered error and
returns no chain.  In the definition of `CAPolicy.CreateChain` the covering
check precedes the construction of any certificate, so the rejection happens
before a certificate is created. -/
theorem CreateChain_validity_not_covered (co : CryptoOracle) (pol : CAPolicy) (wc : Int)
    (serial : List Nat) (csr : CertificateRequest)
    (h : Validity.Covers ⟨pol.certificate.notBefore, pol.certificate.notAfter⟩
          ⟨pol.effectiveNow wc, pol.effectiveNow wc + pol.validity⟩ = false) :
    CAPolicy.CreateChain co pol wc serial csr =
      .error (.validityNotCovered ⟨pol.certificate.notBefore, pol.certificate.notAfter⟩
        ⟨pol.effectiveNow wc, pol.effectiveNow wc + pol.validity⟩) := by
  simp [CAPolicy.CreateChain, h]

/-- Concrete materials for evaluating the embedded issuance policy: a CA
certificate valid on `[0, 1000]`, a CA key declaring ECDSA-with-SHA-256, and
a CSR for AS `1-ff00:0:110` with an ECDSA public key. -/
def exCO : CryptoOracle :=
  ⟨fun bs => bs, fun c x y => [c, x.natAbs, y.natAbs]⟩

def exCAName : PkixName :=
  { commonName := "CA", isdAS := some ⟨1, "ff00:0:111"⟩ }

def exASName : PkixName :=
  { commonName := "AS", isdAS := some ⟨1, "ff00:0:110"⟩ }

def exCACert : Certificate :=
  { subject := exCAName, notBefore := 0, notAfter := 1000, subjectKeyId := [9],
    signatureAlgorithm := .ecdsaWithSHA256 }

def exSigner : Signer := ⟨1, .ecdsaWithSHA256⟩

def exPol : CAPolicy :=
  { validity := 10, certificate := exCACert, signer := exSigner, currentTime := 5 }

/-- A policy whose 2000-tick duration pushes the AS window `[5, 2005]`
outside the CA window `[0, 1000]`. -/
def exPolLong : CAPolicy :=
  { validity := 2000, certificate := exCACert, signer := exSigner, currentTime := 5 }

def exCSR : CertificateRequest :=
  { subject := exASName, publicKey := .ecdsa 1 2 3 }

/-- The leaf certificate `CAPolicy.CreateChain exCO exPol 0 [1, 2] exCSR`
produces. -/
def exLeafCert : Certificate :=
  { version := 3, serialNumber := [1, 2], subject := exASName, issuer := exCAName,
    notBefore := 5, notAfter := 15, keyUsageDigitalSignature := true,
    extKeyUsage := [.serverAuth, .clientAuth, .timeStamping],
    basicConstraintsValid := false, subjectKeyId := [1, 2, 3], authorityKeyId := [9],
    publicKey := .ecdsa 1 2 3, signatureAlgorithm := .ecdsaWithSHA512,
    signedWith := some ⟨exSigner, .ecdsaWithSHA512⟩ }

/-- The chain `CAPolicy.CreateChain exCO exPol 0 [1, 2] exCSR` produces. -/
def exChainOK : List Certificate :=
  [exLeafCert, exCACert]

/-- Witness for C2: the rejection evaluated on a concrete policy and CSR. -/
theorem CreateChain_validity_not_covered_witness :
    CAPolicy.CreateChain exCO exPolLong 0 [1] exCSR =
      .error (.validityNotCovered ⟨0, 1000⟩ ⟨5, 2005⟩) :=
  CreateChain_validity_not_covered exCO exPolLong 0 [1] exCSR (by decide)

/-- Inversion of a successful `CreateChain`: the subject key identifier was
computed from the CSR public key, and the head of the returned chain is the
leaf carrying that identifier, signed by the CA's key with
ECDSA-with-SHA-512. -/
theorem CreateChain_ok_head (co : CryptoOracle) (pol : CAPolicy) (wc : Int)
    (serial : List Nat) (csr : CertificateRequest) (chain : List Certificate)
    (h : CAPolicy.CreateChain co pol wc serial csr = .ok chain) :
    ∃ skid, SubjectKeyID co csr.publicKey = .ok skid ∧
      chain.head?.map (fun c => c.signedWith) = some (some ⟨pol.signer, .ecdsaWithSHA512⟩) ∧
      chain.head?.map (fun c => c.subjectKeyId) = some skid := by
  simp only [CAPolicy.CreateChain] at h
  split at h
  · exact absurd h (by simp)
  · split at h
    · exact absurd h (by simp)
    · next skid hskid =>
      split at h
      · exact absurd h (by simp)
      · simp only [Except.ok.injEq] at h
        subst h
        exact ⟨skid, hskid, by simp [createCertificate], by simp [createCertificate]⟩

/- ### Claim C3 -/

/-- Counterexample for C3 as stated: for the CA policy `exPol`, whose key and
certificate declare ECDSA-with-SHA-256, the accepted CSR `exCSR` yields a
leaf certificate signed with algorithm ECDSA-with-SHA-512, not with the CA's
declared algorithm (the source hardcodes `x509.ECDSAWithSHA512` in the
template, with a comment calling it the wrong value kept for a staggered
rollout). -/
theorem CreateChain_signature_algorithm_counterexample :
    ((CAPolicy.CreateChain exCO exPol 0 [1, 2] exCSR).toOption.bind List.head?).map
        (fun c => c.signedWith) = some (some ⟨exSigner, .ecdsaWithSHA512⟩) ∧
    exPol.signer.algorithm = .ecdsaWithSHA256 ∧
    exPol.certificate.signatureAlgorithm = .ecdsaWithSHA256 ∧
    ((CAPolicy.CreateChain exCO exPol 0 [1, 2] exCSR).toOption.bind List.head?).map
        (fun c => c.signatureAlgorithm) ≠ some exPol.signer.algorithm := by
  refine ⟨by decide, rfl, rfl, by decide⟩

/-- Claim C3 (amended): For every CSR accepted by `CreateChain`, the issued
leaf AS certificate is signed with the CA's private key, but with the
signature algorithm hardcoded to ECDSA-with-SHA-512 regardless of the CA's
declared algorithm. -/
theorem CreateChain_signs_with_ca_key_sha512 (co : CryptoOracle) (pol : CAPolicy)
    (wc : Int) (serial : List Nat) (csr : CertificateRequest) (chain : List Certificate)
    (h : CAPolicy.CreateChain co pol wc serial csr = .ok chain) :
    chain.head?.map (fun c => c.signedWith) = some (some ⟨pol.signer, .ecdsaWithSHA512⟩) := by
  obtain ⟨skid, hskid, hsig, hskid2⟩ := CreateChain_ok_head co pol wc serial csr chain h
  exact hsig

/-- Witness for the amended C3: the concrete chain produced by `exPol` is
signed by `exSigner` with ECDSA-with-SHA-512. -/
theorem CreateChain_signs_with_ca_key_sha512_witness :
    CAPolicy.CreateChain exCO exPol 0 [1, 2] exCSR = .ok exChainOK ∧
    exChainOK.head?.map (fun c => c.signedWith) =
      some (some ⟨exSigner, .ecdsaWithSHA512⟩) :=
  ⟨rfl,
   CreateChain_signs_with_ca_key_sha512 exCO exPol 0 [1, 2] exCSR exChainOK rfl⟩

/- ### Claim C4 -/

/-- Claim C4: The subject-key-identifier derivation is a deterministic pure
function of the public key: recomputing it twice from the same public key
yields identical bytes; and `CreateChain` recomputes it from the CSR's
public key (the accepted chain's leaf carries exactly
`SubjectKeyID csr.publicKey`) rather than trusting any value carried in the
CSR (the result is unchanged under any change of the CSR's embedded
extension values). -/
theorem SubjectKeyID_deterministic_and_recomputed (co : CryptoOracle) (pol : CAPolicy)
    (wc : Int) (serial : List Nat) (subj : PkixName) (pub : PublicKey)
    (exts exts2 : List (List Nat × List Nat)) :
    SubjectKeyID co pub = SubjectKeyID co pub ∧
    (∀ chain, CAPolicy.CreateChain co pol wc serial ⟨subj, pub, exts⟩ = .ok chain →
      chain.head?.map (fun c => c.subjectKeyId) = (SubjectKeyID co pub).toOption) ∧
    CAPolicy.CreateChain co pol wc serial ⟨subj, pub, exts⟩ =
      CAPolicy.CreateChain co pol wc serial ⟨subj, pub, exts2⟩ := by
  refine ⟨rfl, ?_, rfl⟩
  intro chain h
  obtain ⟨skid, hskid, hsig, hskid2⟩ :=
    CreateChain_ok_head co pol wc serial ⟨subj, pub, exts⟩ chain h
  have hskid1 : SubjectKeyID co pub = .ok skid := hskid
  rw [hskid2, hskid1]
  rfl

/-- Witness for C4: the derivation and the recomputation evaluated on the
concrete CSR public key of `exCSR`. -/
theorem SubjectKeyID_deterministic_and_recomputed_witness :
    SubjectKeyID exCO (.ecdsa 1 2 3) = SubjectKeyID exCO (.ecdsa 1 2 3) ∧
    exChainOK.head?.map (fun c => c.subjectKeyId) =
      (SubjectKeyID exCO (.ecdsa 1 2 3)).toOption :=
  ⟨(SubjectKeyID_deterministic_and_recomputed exCO exPol 0 [1, 2] exASName
      (.ecdsa 1 2 3) [] []).1,
   (SubjectKeyID_deterministic_and_recomputed exCO exPol 0 [1, 2] exASName
      (.ecdsa 1 2 3) [] []).2.1 exChainOK rfl⟩

/- ### Renewal response parsing (claims C5, C9) -/

/-- The encapsulated content of a CMS signed-data structure
(`protocol.EncapsulatedContentInfo`); the accessor result is pre-supplied by
the external CMS library. -/
structure EncapContentInfo where
  dataEContent : Except Err (List Nat)

/-- A CMS signed-data structure (`protocol.SignedData`). -/
structure SignedData where
  encapContentInfo : EncapContentInfo

/-- A CMS content-info structure (`protocol.ContentInfo`). -/
structure ContentInfo where
  signedDataContent : Except Err SignedData

/-- The certificate pair embedded in a legacy renewal response body. -/
structure Chain2 where
  asCert : List Nat
  caCert : List Nat

/-- The protobuf body of a legacy renewal response
(`cppb.ChainRenewalResponseBody`). -/
structure ChainRenewalResponseBody where
  chain : Chain2

/-- A renewal response (`cppb.ChainRenewalResponse`): the legacy signed
envelope and the CMS signed envelope, as raw bytes. -/
structure ChainRenewalResponse where
  signedResponse : List Nat
  cmsSignedResponse : List Nat

/-- Oracles for the external parsers used by `extractChain` and
`extractChainLegacy`: the CMS protocol library, `signed.ExtractUnverifiedBody`,
`proto.Unmarshal`, and `x509.ParseCertificate(s)`. -/
structure ParseOracle where
  parseContentInfo : List Nat → Except Err ContentInfo
  parseCertificates : List Nat → Except Err (List Certificate)
  extractUnverifiedBody : List Nat → Except Err (List Nat)
  protoUnmarshalBody : List Nat → Except Err ChainRenewalResponseBody
  parseCertificate : List Nat → Except Err Certificate

/-- `extractChainLegacy` (src `part_001:478`): extract the unverified body of
the legacy signed envelope, unmarshal it, parse the AS and CA certificates,
and validate the resulting two-certificate chain. -/
def extractChainLegacy (po : ParseOracle) (rep : ChainRenewalResponse) :
    Except Err (List Certificate) :=
  match po.extractUnverifiedBody rep.signedResponse with
  | .error e => .error e
  | .ok body =>
    match po.protoUnmarshalBody body with
    | .error e => .error e
    | .ok replyBody =>
      match po.parseCertificate replyBody.chain.asCert with
      | .error e => .error (.wrap .parsingASCert e)
      | .ok c0 =>
        match po.parseCertificate replyBody.chain.caCert with
        | .error e => .error (.wrap .parsingCACert e)
        | .ok c1 =>
          match ValidateChain [c0, c1] with
          | .error e => .error e
          | .ok _ => .ok [c0, c1]

/-- The modern-encoding branch of `extractChain` (src `part_001:456`): parse
the CMS content info, take its signed-data content, take the encapsulated
data content, parse the certificates and validate the chain. -/
def extractChainCMS (po : ParseOracle) (cmsBytes : List Nat) :
    Except Err (List Certificate) :=
  match po.parseContentInfo cmsBytes with
  | .error e => .error e
  | .ok ci =>
    match ci.signedDataContent with
    | .error e => .error e
    | .ok sd =>
      match sd.encapContentInfo.dataEContent with
      | .error e => .error e
      | .ok raw =>
        match po.parseCertificates raw with
        | .error e => .error e
        | .ok chain =>
          match ValidateChain chain with
          | .error e => .error e
          | .ok _ => .ok chain

/-- `extractChain` (src `part_001:448`): fall back to the legacy encoding
when the CMS-signed response is empty, otherwise parse the CMS encoding. -/
def extractChain (po : ParseOracle) (rep : ChainRenewalResponse) :
    Except Err (List Certificate) :=
  if rep.cmsSignedResponse.length = 0 then extractChainLegacy po rep
  else extractChainCMS po rep.cmsSignedResponse

/-- An example legacy-only renewal response, and a parse oracle that decodes
its body into the bytes of `exLeafCert` and `exCACert`. -/
def exRepLegacy : ChainRenewalResponse :=
  { signedResponse := [7], cmsSignedResponse := [] }

def exPO : ParseOracle :=
  { parseContentInfo := fun _ => .error (.external 1)
    parseCertificates := fun _ => .error (.external 2)
    extractUnverifiedBody := fun bs => .ok bs
    protoUnmarshalBody := fun _ => .ok ⟨⟨[0], [1]⟩⟩
    parseCertificate := fun bs => if bs = [0] then .ok exLeafCert else .ok exCACert }

/-- `readECKey` (src `part_001:609`): decode the PEM block of the key file,
parse its bytes as a PKCS#8 private key, and accept only ECDSA keys.  The
decoded PEM block and the PKCS#8 parser are supplied as oracles. -/
def readECKey (parsePKCS8 : List Nat → Except Err PrivateKey) (block : PEMBlock) :
    Except Err ECPrivateKey :=
  match parsePKCS8 block.bytes with
  | .error e => .error e
  | .ok key =>
    match key with
    | .ecdsa v => .ok v
    | _ => .error .unsupportedKeyType

/-- Claim C9: For every private key file whose PEM-decoded PKCS#8 content is
not an elliptic-curve (ECDSA) private key, reading the key fails with the
explicit unsupported-key-type error and no key is returned; an ECDSA key is
returned successfully. -/
theorem readECKey_unsupported_key_type (parsePKCS8 : List Nat → Except Err PrivateKey)
    (block : PEMBlock) (k : PrivateKey) (h : parsePKCS8 block.bytes = .ok k) :
    ((∀ v, k ≠ .ecdsa v) → readECKey parsePKCS8 block = .error .unsupportedKeyType) ∧
    (∀ v, k = .ecdsa v → readECKey parsePKCS8 block = .ok v) := by
  constructor
  · intro hn
    unfold readECKey
    rw [h]
    cases k with
    | ecdsa v => exact absurd rfl (hn v)
    | rsa n d => rfl
    | ed25519 s => rfl
  · intro v hv
    subst hv
    unfold readECKey
    rw [h]

/-- A parser that yields an RSA private key, and an example PEM block. -/
def exRSAParse : List Nat → Except Err PrivateKey := fun _ => .ok (.rsa 33 7)

def exBlock : PEMBlock := ⟨"PRIVATE KEY", [1]⟩

/-- Witness for C9: reading a key file that holds an RSA key fails with the
unsupported-key-type error. -/
theorem readECKey_unsupported_key_type_witness :
    readECKey exRSAParse exBlock = .error .unsupportedKeyType :=
  (readECKey_unsupported_key_type exRSAParse exBlock (.rsa 33 7) rfl).1
    (fun _ hv => PrivateKey.noConfusion hv)

/- ### TRCs and the renewal run function (claims C6, C7, C8, C10) -/

/-- A TRC version identifier (ISD, base version, serial version). -/
structure TRCID where
  isd : Nat
  base : Nat
  serial : Nat

/-- A Trust Root Configuration, reduced to the fields the renewal workflow
reads: its version identifier, validity window and grace-period length. -/
structure TRC where
  id : TRCID
  validity : Validity
  gracePeriod : Int

/-- Modelled from the spec: `cppki.TRC.InGracePeriod` is defined outside the
provided sources.  Per the spec a TRC declares itself in grace period if the
current time is within a configured window after its activation. -/
def TRC.InGracePeriod (t : TRC) (now : Int) : Bool :=
  decide (t.validity.notBefore ≤ now) &&
    decide (now < t.validity.notBefore + t.gracePeriod)

/-- `maybeMissingTRCInGrace` (src `part_001:737`): exactly one TRC was
supplied and it is currently in its grace period.  `time.Now()` is passed
explicitly as `now`. -/
def maybeMissingTRCInGrace (trcs : List TRC) (now : Int) : Bool :=
  match trcs with
  | [t] => t.InGracePeriod now
  | _ => false

/-- Modelled from the spec: `cppki.ExtractIA` (defined outside the provided
sources) reads the ISD-AS attribute, a fixed custom object identifier, from
a distinguished name, failing when it is absent. -/
def ExtractIA (n : PkixName) : Option IA := n.isdAS

/-- Model of Go's `filepath.Dir`: the path up to the final separator, `"."`
when there is none, and `"/"` for a file directly under the root. -/
def filepathDir (path : String) : String :=
  let pre := ((path.data.reverse.dropWhile (fun c => c ≠ '/')).drop 1).reverse
  if pre.isEmpty then (if path.data.head? = some '/' then "/" else ".")
  else String.mk pre

/-- Model of Go's `filepath.Join` for a directory and one element. -/
def filepathJoin (dir file : String) : String :=
  if dir = "" then file else dir ++ "/" ++ file

/-- One lowercase hexadecimal digit. -/
def hexDigit (n : Nat) : Char :=
  if n < 10 then Char.ofNat (48 + n) else Char.ofNat (87 + n)

/-- Go's percent-x formatting of a byte string: two lowercase hexadecimal
digits per byte. -/
def hexBytes (bs : List Nat) : String :=
  String.mk (bs.foldr (fun b acc => hexDigit (b / 16 % 16) :: hexDigit (b % 16) :: acc) [])

/-- `outFileFromSubject` (src `part_001:671`): the default output file name,
derived from the renewed leaf certificate's subject ISD-AS (ISD in decimal,
AS in file format) and its hex-encoded serial number, placed in the given
directory.  Go panics when the IA cannot be extracted from the
already-validated chain; that case is modelled as `none`. -/
def outFileFromSubject (renewed : List Certificate) (dir : String) : Option String :=
  match renewed.head? with
  | none => none
  | some leaf =>
    match ExtractIA leaf.subject with
    | none => none
    | some subject =>
      some (filepathJoin dir ("ISD" ++ Nat.repr subject.i ++ "-AS" ++ IA.fileFmtA subject
        ++ "." ++ hexBytes (bigIntBytes leaf.serialNumber) ++ ".pem"))

/-- Observable effects of one renewal run. -/
inductive Event
  | createCSR
  | dial
  | sendRequest
  | writeFile (path : String)
  | printGraceGuidance (base serial : Nat)

/-- The wire-encoding feature flags (src `part_001:90`). -/
structure Features where
  disableLegacyRequest : Bool
  disableCMSRequest : Bool

/-- The command-line flags of `newRenewCmd` that the embedded run function
reads. -/
structure RenewFlags where
  outFile : String
  csrFile : String
  reqFile : String
  transportCertFile : String

/-- Outcome of one renewal run: success, an error return, or a Go panic. -/
inductive Outcome
  | ok
  | err (e : Err)
  | panicked

/-- The trace of observable effects and the outcome of one renewal run. -/
structure RunResult where
  trace : List Event
  outcome : Outcome

/-- The results of every external interaction of one renewal run (argument
parsing, file loading, daemon and network calls, verification, file
writes), drawn on by `runRenew` in source order. -/
structure RenewEnv where
  now : Int
  parseCAArg : Except Err (Option IA)
  features : Except Err Features
  trcs : Except Err (List TRC)
  transportChain : Except Err (List Certificate × IA)
  readKey : Except Err ECPrivateKey
  csrTemplate : Except Err CertificateRequest
  createCSR : Except Err (List Nat)
  writeCSR : Except Err Unit
  findLocalAddr : Except Err Unit
  buildDialer : Except Err Unit
  createSigner : Except Err Unit
  newLegacyRequest : Except Err (List Nat)
  newCMSRequest : Except Err (List Nat)
  writeReq : Except Err Unit
  sendRequest : Except Err ChainRenewalResponse
  po : ParseOracle
  verifyRenewed : Except Err Unit
  writeChainRes : String → Except Err Unit

/-- The grace-period guidance printed on verification failure
(src `part_001:321`): present exactly when `maybeMissingTRCInGrace` holds,
naming the first TRC's base unchanged and its serial decreased by one. -/
def graceEvents (trcs : List TRC) (now : Int) : List Event :=
  if maybeMissingTRCInGrace trcs now then
    match trcs with
    | t :: _ => [.printGraceGuidance t.id.base (t.id.serial - 1)]
    | [] => []
  else []

/-- The output-path resolution of the run function (src `part_001:308`): the
explicit `--out` flag, or the default name placed next to the transport
certificate chain. -/
def resolveOutFile (flags : RenewFlags) (renewed : List Certificate) : Option String :=
  if flags.outFile = "" then
    outFileFromSubject renewed (filepathDir flags.transportCertFile)
  else some flags.outFile

/-- The run function of `newRenewCmd` (src `part_001:173`): the renewal
workflow from argument parsing to persisting the renewed chain.  Every
external interaction is drawn from `env` in source order; the observable
effects are recorded in the returned trace.  The best-effort CSR and
request exports ignore their write results (the source only logs those
failures), while a missing CMS request with `req-out` set is a fatal error.
The run function is split into three stage functions mirroring the source's
step comments: `runRenew` covers argument/feature/trust loading and CSR
creation (steps 1-2), `runRenewRequests` covers request creation and the
optional request export (step 3), and `runRenewSend` covers transmission,
response extraction, verification and persistence (steps 4-6). -/
def runRenewSend (flags : RenewFlags) (env : RenewEnv) (trcs : List TRC)
    (t4 : List Event) : RunResult :=
  match env.sendRequest with
  | .error e => ⟨t4, .err e⟩
  | .ok rep =>
  match extractChain env.po rep with
  | .error e => ⟨t4, .err e⟩
  | .ok renewed =>
  match resolveOutFile flags renewed with
  | none => ⟨t4, .panicked⟩
  | some out =>
  match env.verifyRenewed with
  | .error e =>
    ⟨t4 ++ [.writeFile (out ++ ".unverified")] ++ graceEvents trcs env.now,
     .err (.wrap .verificationFailed e)⟩
  | .ok _ =>
  match env.writeChainRes out with
  | .error e => ⟨t4 ++ [.writeFile out], .err e⟩
  | .ok _ => ⟨t4 ++ [.writeFile out], .ok⟩

/-- Step 3 of the run function (src `part_001:262`): build the request in up
to two encodings, then the fatal no-request-created check when `req-out` is
set, then hand over to the transmission stage. -/
def runRenewRequests (flags : RenewFlags) (env : RenewEnv) (features : Features)
    (trcs : List TRC) (t2 : List Event) : RunResult :=
  match (if features.disableLegacyRequest then .ok none
      else env.newLegacyRequest.map some : Except Err (Option (List Nat))) with
  | .error e => ⟨t2, .err e⟩
  | .ok _ =>
  match (if features.disableCMSRequest then .ok none
      else env.newCMSRequest.map some : Except Err (Option (List Nat))) with
  | .error e => ⟨t2, .err e⟩
  | .ok cmsReq =>
  match (if flags.reqFile = "" then .ok t2
      else match cmsReq with
        | none => .error .noRequestCreated
        | some _ => .ok (t2 ++ [.writeFile flags.reqFile]) : Except Err (List Event)) with
  | .error e => ⟨t2, .err e⟩
  | .ok t3 =>
  runRenewSend flags env trcs (t3 ++ [.sendRequest])

/-- Steps up to CSR creation of the run function (src `part_001:173`). -/
def runRenew (flags : RenewFlags) (env : RenewEnv) : RunResult :=
  match env.parseCAArg with
  | .error e => ⟨[], .err e⟩
  | .ok _ =>
  match env.features with
  | .error e => ⟨[], .err e⟩
  | .ok features =>
  if features.disableCMSRequest && features.disableLegacyRequest then
    ⟨[], .err .bothRequestsDisabled⟩
  else
  match env.trcs with
  | .error e => ⟨[], .err e⟩
  | .ok trcs =>
  match env.transportChain with
  | .error e => ⟨[], .err e⟩
  | .ok _ =>
  match env.readKey with
  | .error e => ⟨[], .err e⟩
  | .ok _ =>
  match env.csrTemplate with
  | .error e => ⟨[], .err e⟩
  | .ok _ =>
  match env.createCSR with
  | .error e => ⟨[], .err e⟩
  | .ok _ =>
  let t1 : List Event :=
    [.createCSR] ++ (if flags.csrFile = "" then [] else [.writeFile flags.csrFile])
  match env.findLocalAddr with
  | .error e => ⟨t1, .err e⟩
  | .ok _ =>
  let t2 := t1 ++ [.dial]
  match env.buildDialer with
  | .error e => ⟨t2, .err e⟩
  | .ok _ =>
  match env.createSigner with
  | .error e => ⟨t2, .err e⟩
  | .ok _ =>
  runRenewRequests flags env features trcs t2

/-- Reduction of the run function to the request stage: when argument
parsing, feature parsing (with not both encodings disabled), trust-material
loading, key reading, CSR creation, address lookup, dialing and signer
creation all succeed, the run continues at `runRenewRequests` with the
trace of the completed steps. -/
theorem runRenew_requests_stage (flags : RenewFlags) (env : RenewEnv) (f : Features)
    (trcs : List TRC)
    (hca : ∃ x, env.parseCAArg = .ok x)
    (hf : env.features = .ok f)
    (hboth : (f.disableCMSRequest && f.disableLegacyRequest) = false)
    (htrcs : env.trcs = .ok trcs)
    (hchain : ∃ x, env.transportChain = .ok x)
    (hkey : ∃ x, env.readKey = .ok x)
    (htmpl : ∃ x, env.csrTemplate = .ok x)
    (hcsr : ∃ x, env.createCSR = .ok x)
    (hlocal : env.findLocalAddr = .ok ())
    (hdial : env.buildDialer = .ok ())
    (hsigner : env.createSigner = .ok ()) :
    runRenew flags env = runRenewRequests flags env f trcs
      (Event.createCSR ::
        ((if flags.csrFile = "" then [] else [Event.writeFile flags.csrFile]) ++
          [Event.dial])) := by
  obtain ⟨a1, h1⟩ := hca
  obtain ⟨a2, h2⟩ := hchain
  obtain ⟨a3, h3⟩ := hkey
  obtain ⟨a4, h4⟩ := htmpl
  obtain ⟨a5, h5⟩ := hcsr
  obtain ⟨n, pca, fs, tr, tc, rk, ct, cc, wcs, fl0, bd, cs, nl, nc, wr, sr, po0, vr, wcr⟩ := env
  subst h1 hf htrcs h2 h3 h4 h5 hlocal hdial hsigner
  dsimp only [runRenew]
  rw [hboth]
  rfl

/- ### Claim C7 -/

/-- Claim C7: If both the legacy and the CMS wire request encodings are
disabled by feature flags, the renewal workflow fails with the
configuration error before any activity is observable: the trace is empty,
so in particular no CSR was created, nothing was dialed, and no request was
sent. -/
theorem runRenew_both_encodings_disabled (flags : RenewFlags) (env : RenewEnv)
    (f : Features) (hca : ∃ x, env.parseCAArg = .ok x)
    (hf : env.features = .ok f)
    (hcms : f.disableCMSRequest = true) (hleg : f.disableLegacyRequest = true) :
    (runRenew flags env).outcome = .err .bothRequestsDisabled ∧
    (runRenew flags env).trace = [] := by
  obtain ⟨x, hx⟩ := hca
  have hR : runRenew flags env = ⟨[], .err .bothRequestsDisabled⟩ := by
    simp [runRenew, hx, hf, hcms, hleg]
  rw [hR]
  exact ⟨rfl, rfl⟩

/- Example materials for the workflow claims: a TRC in its grace period at
time 50, flags pointing at `/certs/old.pem`, and an environment in which
every external interaction succeeds and the response decodes to
`[exLeafCert, exCACert]`. -/

def exTRC : TRC := { id := ⟨1, 1, 2⟩, validity := ⟨0, 1000⟩, gracePeriod := 100 }

def exFlags : RenewFlags :=
  { outFile := "out.pem", csrFile := "", reqFile := "", transportCertFile := "/certs/old.pem" }

def exEnvBase : RenewEnv :=
  { now := 50
    parseCAArg := .ok none
    features := .ok ⟨false, false⟩
    trcs := .ok [exTRC]
    transportChain := .ok ([exLeafCert, exCACert], ⟨1, "ff00:0:111"⟩)
    readKey := .ok ⟨3, .ecdsa 1 2 3⟩
    csrTemplate := .ok exCSR
    createCSR := .ok [1]
    writeCSR := .ok ()
    findLocalAddr := .ok ()
    buildDialer := .ok ()
    createSigner := .ok ()
    newLegacyRequest := .ok [2]
    newCMSRequest := .ok [3]
    writeReq := .ok ()
    sendRequest := .ok exRepLegacy
    po := exPO
    verifyRenewed := .ok ()
    writeChainRes := fun _ => .ok () }

/-- Witness for C7: with both encodings disabled the concrete run errors out
with an empty trace. -/
theorem runRenew_both_encodings_disabled_witness :
    (runRenew exFlags { exEnvBase with features := .ok ⟨true, true⟩ }).outcome =
        .err .bothRequestsDisabled ∧
    (runRenew exFlags { exEnvBase with features := .ok ⟨true, true⟩ }).trace = [] :=
  runRenew_both_encodings_disabled exFlags _ ⟨true, true⟩ ⟨none, rfl⟩ rfl rfl rfl

/- ### Claim C10 -/

/-- Claim C10: If the operator requests that the signed renewal request be
exported to a file (`req-out` set) while the CMS encoding is disabled, so
that no CMS-signed request was created, the workflow fails with the
no-request-created error before transmitting anything (no send event is
traced); and — unlike this fatal export — the best-effort CSR export's
write result never influences the run at all. -/
theorem runRenew_reqFile_requires_cms (flags : RenewFlags) (env : RenewEnv)
    (f : Features) (hca : ∃ x, env.parseCAArg = .ok x)
    (hf : env.features = .ok f)
    (hcms : f.disableCMSRequest = true) (hleg : f.disableLegacyRequest = false)
    (htrcs : ∃ x, env.trcs = .ok x)
    (hchain : ∃ x, env.transportChain = .ok x)
    (hkey : ∃ x, env.readKey = .ok x)
    (htmpl : ∃ x, env.csrTemplate = .ok x)
    (hcsr : ∃ x, env.createCSR = .ok x)
    (hlocal : env.findLocalAddr = .ok ())
    (hdial : env.buildDialer = .ok ())
    (hsigner : env.createSigner = .ok ())
    (hlreq : ∃ x, env.newLegacyRequest = .ok x)
    (hreq : flags.reqFile ≠ "") :
    (runRenew flags env).outcome = .err .noRequestCreated ∧
    Event.sendRequest ∉ (runRenew flags env).trace ∧
    (∀ w, runRenew flags { env with writeCSR := w } = runRenew flags env) := by
  obtain ⟨a1, h1⟩ := hca
  obtain ⟨a2, h2⟩ := htrcs
  obtain ⟨a3, h3⟩ := hchain
  obtain ⟨a4, h4⟩ := hkey
  obtain ⟨a5, h5⟩ := htmpl
  obtain ⟨a6, h6⟩ := hcsr
  obtain ⟨a7, h7⟩ := hlreq
  have hR : runRenew flags env =
      ⟨Event.createCSR ::
          ((if flags.csrFile = "" then [] else [Event.writeFile flags.csrFile]) ++
            [Event.dial]),
       .err .noRequestCreated⟩ := by
    rw [runRenew_requests_stage flags env f a2 ⟨a1, h1⟩ hf (by rw [hcms, hleg]; rfl) h2 ⟨a3, h3⟩
      ⟨a4, h4⟩ ⟨a5, h5⟩ ⟨a6, h6⟩ hlocal hdial hsigner]
    simp [runRenewRequests, Except.map, h7, hcms, hleg, hreq]
  refine ⟨by rw [hR], ?_, ?_⟩
  · rw [hR]
    by_cases hcf : flags.csrFile = "" <;> simp [hcf]
  · intro w
    obtain ⟨n, pca, fs, tr, tc, rk, ct, cc, wcs, fl, bd, cs, nl, nc, wr, sr, po0, vr, wcr⟩ := env
    rfl

def exFlagsReq : RenewFlags := { exFlags with reqFile := "req.pem" }

def exEnvC10 : RenewEnv := { exEnvBase with features := .ok ⟨false, true⟩ }

/-- Witness for C10: with the CMS encoding disabled and `req-out` set, the
concrete run fails with the no-request-created error without sending. -/
theorem runRenew_reqFile_requires_cms_witness :
    (runRenew exFlagsReq exEnvC10).outcome = .err .noRequestCreated ∧
    Event.sendRequest ∉ (runRenew exFlagsReq exEnvC10).trace :=
  ⟨(runRenew_reqFile_requires_cms exFlagsReq exEnvC10 ⟨false, true⟩ ⟨none, rfl⟩ rfl rfl rfl
      ⟨[exTRC], rfl⟩ ⟨([exLeafCert, exCACert], ⟨1, "ff00:0:111"⟩), rfl⟩
      ⟨⟨3, .ecdsa 1 2 3⟩, rfl⟩ ⟨exCSR, rfl⟩ ⟨[1], rfl⟩ rfl rfl rfl ⟨[2], rfl⟩
      (by decide)).1,
   (runRenew_reqFile_requires_cms exFlagsReq exEnvC10 ⟨false, true⟩ ⟨none, rfl⟩ rfl rfl rfl
      ⟨[exTRC], rfl⟩ ⟨([exLeafCert, exCACert], ⟨1, "ff00:0:111"⟩), rfl⟩
      ⟨⟨3, .ecdsa 1 2 3⟩, rfl⟩ ⟨exCSR, rfl⟩ ⟨[1], rfl⟩ rfl rfl rfl ⟨[2], rfl⟩
      (by decide)).2.1⟩

/-- Reduction of the request stage when both request creations succeed and
no request export was asked for. -/
theorem runRenewRequests_ok (flags : RenewFlags) (env : RenewEnv) (f : Features)
    (trcs : List TRC) (t2 : List Event) (a6 a7 : Option (List Nat))
    (h6a : (if f.disableLegacyRequest then (.ok none : Except Err (Option (List Nat)))
      else Except.map some env.newLegacyRequest) = .ok a6)
    (h7a : (if f.disableCMSRequest then (.ok none : Except Err (Option (List Nat)))
      else Except.map some env.newCMSRequest) = .ok a7)
    (hreqFile : flags.reqFile = "") :
    runRenewRequests flags env f trcs t2 =
      runRenewSend flags env trcs (t2 ++ [.sendRequest]) := by
  simp [runRenewRequests, h6a, h7a, hreqFile]

/-- Reduction of the transmission stage when the response arrives and
decodes but the renewed chain fails verification. -/
theorem runRenewSend_verify_failure (flags : RenewFlags) (env : RenewEnv)
    (trcs : List TRC) (t4 : List Event) (rep : ChainRenewalResponse)
    (renewed : List Certificate) (out : String) (e : Err)
    (hsend : env.sendRequest = .ok rep)
    (hextract : extractChain env.po rep = .ok renewed)
    (hout : resolveOutFile flags renewed = some out)
    (hverify : env.verifyRenewed = .error e) :
    runRenewSend flags env trcs t4 =
      ⟨t4 ++ [.writeFile (out ++ ".unverified")] ++ graceEvents trcs env.now,
       .err (.wrap .verificationFailed e)⟩ := by
  simp [runRenewSend, hsend, hextract, hout, hverify]

/- ### Claim C6 -/

/-- Claim C6: When the renewed chain fails verification, the workflow writes
the chain to the resolved output path with the `.unverified` suffix
appended and the command fails with a descriptive (wrapped) error rather
than crashing; when additionally exactly one TRC was supplied and it is in
its grace period, guidance naming the predecessor TRC — base unchanged,
serial decreased by one — is emitted; with more than one TRC supplied or no
grace period, no such guidance is emitted. -/
theorem runRenew_grace_period_guidance (flags : RenewFlags) (env : RenewEnv)
    (f : Features) (trcs : List TRC) (rep : ChainRenewalResponse)
    (renewed : List Certificate) (out : String) (e : Err)
    (hca : ∃ x, env.parseCAArg = .ok x)
    (hf : env.features = .ok f)
    (hboth : (f.disableCMSRequest && f.disableLegacyRequest) = false)
    (htrcs : env.trcs = .ok trcs)
    (hchain : ∃ x, env.transportChain = .ok x)
    (hkey : ∃ x, env.readKey = .ok x)
    (htmpl : ∃ x, env.csrTemplate = .ok x)
    (hcsr : ∃ x, env.createCSR = .ok x)
    (hlocal : env.findLocalAddr = .ok ())
    (hdial : env.buildDialer = .ok ())
    (hsigner : env.createSigner = .ok ())
    (hlreq : ∃ x, env.newLegacyRequest = .ok x)
    (hcreq : ∃ x, env.newCMSRequest = .ok x)
    (hreqFile : flags.reqFile = "")
    (hsend : env.sendRequest = .ok rep)
    (hextract : extractChain env.po rep = .ok renewed)
    (hout : resolveOutFile flags renewed = some out)
    (hverify : env.verifyRenewed = .error e) :
    Event.writeFile (out ++ ".unverified") ∈ (runRenew flags env).trace ∧
    (runRenew flags env).outcome = .err (.wrap .verificationFailed e) ∧
    (∀ t rest, trcs = t :: rest → maybeMissingTRCInGrace trcs env.now = true →
      Event.printGraceGuidance t.id.base (t.id.serial - 1) ∈ (runRenew flags env).trace) ∧
    (maybeMissingTRCInGrace trcs env.now = false →
      ∀ b s, Event.printGraceGuidance b s ∉ (runRenew flags env).trace) := by
  obtain ⟨a6, h6⟩ := hlreq
  obtain ⟨a7, h7⟩ := hcreq
  have h6a : (if f.disableLegacyRequest then (.ok none : Except Err (Option (List Nat)))
      else Except.map some env.newLegacyRequest) =
      .ok (if f.disableLegacyRequest then none else some a6) := by
    cases hfl : f.disableLegacyRequest
    · rw [h6]; rfl
    · rfl
  have h7a : (if f.disableCMSRequest then (.ok none : Except Err (Option (List Nat)))
      else Except.map some env.newCMSRequest) =
      .ok (if f.disableCMSRequest then none else some a7) := by
    cases hfc : f.disableCMSRequest
    · rw [h7]; rfl
    · rfl
  have hR : runRenew flags env =
      ⟨Event.createCSR ::
          ((if flags.csrFile = "" then [] else [Event.writeFile flags.csrFile]) ++
            (Event.dial :: Event.sendRequest ::
              Event.writeFile (out ++ ".unverified") :: graceEvents trcs env.now)),
       .err (.wrap .verificationFailed e)⟩ := by
    rw [runRenew_requests_stage flags env f trcs hca hf hboth htrcs hchain hkey htmpl hcsr
        hlocal hdial hsigner,
      runRenewRequests_ok flags env f trcs _ _ _ h6a h7a hreqFile,
      runRenewSend_verify_failure flags env trcs _ rep renewed out e hsend hextract hout
        hverify]
    simp
  rw [hR]
  refine ⟨by simp, rfl, ?_, ?_⟩
  · intro t rest ht hg
    subst ht
    simp [graceEvents, hg]
  · intro hg b s
    by_cases hcf : flags.csrFile = "" <;> simp [graceEvents, hg, hcf]

def exEnvC6 : RenewEnv := { exEnvBase with verifyRenewed := .error (.external 7) }

/-- Witness for C6: on the concrete failing-verification run with the single
grace-period TRC `exTRC` (base 1, serial 2), the chain is written to
`out.pem.unverified`, guidance names base 1 and serial 1, and the run ends
in the wrapped verification error. -/
theorem runRenew_grace_period_guidance_witness :
    Event.writeFile "out.pem.unverified" ∈ (runRenew exFlags exEnvC6).trace ∧
    (runRenew exFlags exEnvC6).outcome = .err (.wrap .verificationFailed (.external 7)) ∧
    Event.printGraceGuidance 1 1 ∈ (runRenew exFlags exEnvC6).trace := by
  have h := runRenew_grace_period_guidance exFlags exEnvC6 ⟨false, false⟩ [exTRC]
    exRepLegacy [exLeafCert, exCACert] "out.pem" (.external 7)
    ⟨none, rfl⟩ rfl rfl rfl ⟨([exLeafCert, exCACert], ⟨1, "ff00:0:111"⟩), rfl⟩
    ⟨⟨3, .ecdsa 1 2 3⟩, rfl⟩ ⟨exCSR, rfl⟩ ⟨[1], rfl⟩ rfl rfl rfl ⟨[2], rfl⟩ ⟨[3], rfl⟩
    rfl rfl rfl rfl rfl
  exact ⟨h.1, h.2.1, h.2.2.1 exTRC [] rfl (by decide)⟩

/- ### Claim C8 -/

/-- Claim C8: When no explicit output path is given, the renewed chain's
output path is computed deterministically from the renewed leaf
certificate's subject ISD (decimal), AS in file format, and hex-encoded
certificate serial number, joined to the directory of the transport
certificate chain. -/
theorem outFileFromSubject_naming (flags : RenewFlags) (renewed : List Certificate)
    (leaf : Certificate) (ia : IA)
    (hl : renewed.head? = some leaf) (hia : leaf.subject.isdAS = some ia)
    (hout : flags.outFile = "") :
    resolveOutFile flags renewed =
      some (filepathJoin (filepathDir flags.transportCertFile)
        ("ISD" ++ Nat.repr ia.i ++ "-AS" ++ IA.fileFmtA ia ++ "." ++
          hexBytes (bigIntBytes leaf.serialNumber) ++ ".pem")) := by
  simp [resolveOutFile, hout, outFileFromSubject, hl, ExtractIA, hia]

/-- The leaf certificate of the C8 example: subject AS `1-ff00:0:110`,
serial number `0x1a2b`. -/
def exLeafC8 : Certificate := { exLeafCert with serialNumber := [26, 43] }

/-- Witness for C8: renewing AS `1-ff00:0:110` with certificate serial
`0x1a2b`, transport chain `/certs/old.pem`, and no explicit output path
resolves to `/certs/ISD1-ASff00_0_110.1a2b.pem`. -/
theorem outFileFromSubject_naming_witness :
    resolveOutFile { exFlags with outFile := "" } [exLeafC8, exCACert] =
      some "/certs/ISD1-ASff00_0_110.1a2b.pem" := by
  have h := outFileFromSubject_naming { exFlags with outFile := "" } [exLeafC8, exCACert]
    exLeafC8 ⟨1, "ff00:0:110"⟩ rfl rfl rfl
  rw [h]
  rfl
